import Mathlib

/-!
Verification of the write-agent workflow subsystem.

This file embeds, as executable Lean definitions, the state-manipulating parts of
the repository:

* the 9-step workflow routes (server/routes/workflow.py): execute_step,
  confirm_checkpoint, abort_workflow, create_workflow, extract_word_count,
  WORKFLOW_STEPS;
* the task-store operations they call (server/services/db_service.py):
  update_task_step, update_task_to_waiting, add_think_aloud_log,
  update_brief_data, confirm_and_continue, update_knowledge_data, create_task,
  search_materials_by_keywords, search_materials_by_embedding,
  get_materials_by_channel;
* the material curator (server/services/material_processor.py):
  filter_spam_materials, dedupe_by_source, dedupe_by_content_similarity,
  process_materials, with character-2-gram Jaccard similarity;
* the style resolution logic of the workflow engine
  (server/services/workflow_engine.py): the step-5 fallback chain and the
  step-7 effective-style selection.

Conventions of the embedding:

* JSONB dictionaries are modelled as insertion-ordered association lists of
  JVal values; Python dict assignment replaces the value in place.
* Python truthiness is modelled by the function truthy (empty string, empty
  dict, empty list, False, 0 and null are falsy).
* The external AI engine call of each step is abstracted to a HandlerOutcome:
  either success with the engine result record (the fields of the returned
  dict that the route reads) or failure (an exception escaping the engine).
* Database rows always exist (the 404 task-not-found path is outside the
  claims); commits are modelled as pure record updates.
* Floating-point similarity scores are modelled as rationals.
-/

namespace WriteAgent

/-- Status strings stored in writing_tasks.status by the workflow routes. -/
inductive Status
  | processing
  | waitingConfirm
  | completed
  | error
  | aborted
  deriving DecidableEq, Repr

/-- JSON-like values stored in the brief_data JSONB column. Arrays and objects
are built in cons form (anil/acons, onil/ocons) so that equality is derivable. -/
inductive JVal
  | str : String → JVal
  | bool : Bool → JVal
  | num : Nat → JVal
  | null : JVal
  | anil : JVal
  | acons : JVal → JVal → JVal
  | onil : JVal
  | ocons : String → JVal → JVal → JVal
  deriving DecidableEq, Repr

/-- Array literal as a JSON value. -/
def JVal.arrOf (l : List JVal) : JVal := l.foldr .acons .anil

/-- Object literal as a JSON value. -/
def JVal.objOf (l : List (String × JVal)) : JVal :=
  l.foldr (fun p r => .ocons p.1 p.2 r) .onil

/-- Python truthiness on JSON-like values: None, False, 0, empty string, empty
list and empty dict are falsy, everything else is truthy. -/
def truthy : JVal → Bool
  | .str s => !s.isEmpty
  | .bool b => b
  | .num n => n != 0
  | .anil => false
  | .acons _ _ => true
  | .onil => false
  | .ocons _ _ _ => true
  | .null => false

/-- Dictionary assignment d[k] = v on an insertion-ordered association list:
replaces the first binding of the key in place, otherwise appends. -/
def setKey : List (String × JVal) → String → JVal → List (String × JVal)
  | [], k, v => [(k, v)]
  | (k', v') :: rest, k, v =>
      if k' = k then (k, v) :: rest else (k', v') :: setKey rest k v

/-- Python dict.update: assign every pair in order. -/
def updateMany (m : List (String × JVal)) (us : List (String × JVal)) :
    List (String × JVal) :=
  us.foldl (fun acc p => setKey acc p.1 p.2) m

/-- Dictionary read d.get(k): the stored value, or null when absent. -/
def getKey (m : List (String × JVal)) (k : String) : JVal :=
  match m.lookup k with
  | some v => v
  | none => .null

/-- Field access v.get(k) on a JSON value: lookup inside an object, null
otherwise. -/
def jGet : JVal → String → JVal
  | .ocons k' v rest, k => if k' = k then v else jGet rest k
  | _, _ => .null

/-- One row of the writing_tasks table, restricted to the columns the workflow
routes read and write. -/
structure Task where
  currentStep : Nat
  status : Status
  briefData : List (String × JVal)
  knowledgeBaseData : Option String
  knowledgeSummary : Option String
  draftContent : Option String
  finalContent : Option String
  thinkAloudLogs : List (Nat × String)
  deriving DecidableEq, Repr

/-- DatabaseService.update_task_step: sets current_step and status; the
optional draft_content / final_content keyword arguments overwrite the
corresponding columns when supplied. -/
def updateTaskStep (t : Task) (step : Nat) (status : Status)
    (draft : Option String) (final : Option String) : Task :=
  { t with
    currentStep := step
    status := status
    draftContent := match draft with | some d => some d | none => t.draftContent
    finalContent := match final with | some f => some f | none => t.finalContent }

/-- Key step_N_output used by update_task_to_waiting and the step branches. -/
def stepOutputKey (step : Nat) : String :=
  "step_" ++ toString step ++ "_output"

/-- DatabaseService.update_task_to_waiting: sets current_step := step,
status := waiting_confirm and overwrites brief_data[step_N_output] with the
checkpoint payload. -/
def updateTaskToWaiting (t : Task) (step : Nat) (outputData : JVal) : Task :=
  { t with
    currentStep := step
    status := .waitingConfirm
    briefData := setKey t.briefData (stepOutputKey step) outputData }

/-- DatabaseService.add_think_aloud_log: appends one (step, content) entry to
the append-only think_aloud_logs list. -/
def addThinkAloudLog (t : Task) (step : Nat) (content : String) : Task :=
  { t with thinkAloudLogs := t.thinkAloudLogs ++ [(step, content)] }

/-- DatabaseService.update_brief_data: partial dict update of brief_data. -/
def updateBriefData (t : Task) (updates : List (String × JVal)) : Task :=
  { t with briefData := updateMany t.briefData updates }

/-- DatabaseService.confirm_and_continue: sets status := processing and stores
the confirmation payload under brief_data[user_confirmation]. The current
step is left untouched. -/
def confirmAndContinue (t : Task) (confirmationData : JVal) : Task :=
  { t with
    status := .processing
    briefData := setKey t.briefData "user_confirmation" confirmationData }

/-- DatabaseService.update_knowledge_data: overwrites the two step-2 knowledge
columns. -/
def updateKnowledgeData (t : Task) (kb : String) (summary : String) : Task :=
  { t with knowledgeBaseData := some kb, knowledgeSummary := some summary }

/-- DatabaseService.create_task as invoked by the create_workflow route: a
fresh task at step 1 in processing state, whose brief_data holds the brief and
creation time, followed by the initial think-aloud entry at step 0. -/
def createTask (channelId brief now : String) : Task :=
  let t : Task :=
    { currentStep := 1
      status := .processing
      briefData := [("brief", .str brief), ("created_at", .str now)]
      knowledgeBaseData := none
      knowledgeSummary := none
      draftContent := none
      finalContent := none
      thinkAloudLogs := [] }
  addThinkAloudLog t 0
    ("[系统] 创建写作任务\n频道: " ++ channelId ++ "\n需求: " ++ brief.take 100 ++ "...")

/-- Read a string slot of brief_data with default value the empty string,
modelling brief_data.get(key, "") on string-valued slots. -/
def getStrKey (m : List (String × JVal)) (k : String) : String :=
  match getKey m k with
  | .str s => s
  | _ => ""

/-- String read v.get(k, dflt) on a JSON object for string-valued slots. -/
def jGetStr (v : JVal) (k : String) (dflt : String) : String :=
  match jGet v k with
  | .str s => s
  | _ => dflt

/-- Python truthiness of an Optional[str] value. -/
def optStrTruthy : Option String → Bool
  | some s => !s.isEmpty
  | none => false

/-- Fields of the dict an engine step handler returns that the execute_step
route reads. Steps 2, 3 and 6 return is_checkpoint=True; the return dicts of
steps 1, 4, 5, 7, 8 and 9 carry no is_checkpoint key, so the flag is false for
them. The step-2 fields model result.get("knowledge_summary", "") and
result.get("knowledge_sources", []); the step-5 fields model the style and
material entries of its result dict. -/
structure EngineResult where
  output : String
  thinkAloud : String
  knowledgeSummary : String
  knowledgeSources : List String
  styleProfile : JVal
  retrievedMaterials : JVal
  classifiedMaterials : JVal
  selectedSample : JVal
  allSamples : JVal
  isCheckpoint : Bool
  deriving DecidableEq, Repr

/-- Outcome of the abstracted engine call inside a step branch: either the
returned dict, or an exception escaping the engine. -/
inductive HandlerOutcome
  | success (r : EngineResult)
  | failure (msg : String)
  deriving DecidableEq, Repr

/-- Body of ExecuteStepRequest. -/
structure ExecuteStepRequest where
  selectedTopic : Option String
  materials : Option String
  deriving DecidableEq, Repr

/-- What the execute_step route hands back to the HTTP layer: a success
response from a checkpoint branch, a success response from the shared
advance block, or a raised HTTPException with its status code. -/
inductive ExecOutcome
  | okCheckpoint (stepId : Nat)
  | okAdvance (stepId : Nat)
  | httpError (code : Nat)
  deriving DecidableEq, Repr

/-- Entry of WORKFLOW_STEPS in routes/workflow.py. -/
structure StepDef where
  stepId : Nat
  stepName : String
  isCheckpoint : Bool
  deriving DecidableEq, Repr

/-- The 9-step SOP table WORKFLOW_STEPS. -/
def WORKFLOW_STEPS : List StepDef :=
  [⟨1, "理解需求", false⟩, ⟨2, "信息搜索", true⟩, ⟨3, "选题讨论", true⟩,
   ⟨4, "协作文档", false⟩, ⟨5, "风格建模", true⟩, ⟨6, "挂起等待", true⟩,
   ⟨7, "初稿创作", false⟩, ⟨8, "四遍审校", false⟩, ⟨9, "文章配图", false⟩]

/-- Generic exception branch of execute_step: mark the step as error, append a
failure log entry, re-raise as HTTP 500. -/
def execFail (t1 : Task) (stepId : Nat) (msg : String) : ExecOutcome × Task :=
  let t2 := updateTaskStep t1 stepId .error none none
  let t3 := addThinkAloudLog t2 stepId ("[ERROR] 执行失败: " ++ msg)
  (.httpError 500, t3)

/-- Shared tail of execute_step for non-checkpoint branches: when the engine
result is truthy (it always is) and carries no checkpoint flag, advance
current_step to step+1 clamped at 9 and set status processing, or completed
when the executed step is 9. -/
def execAdvance (t : Task) (stepId : Nat) (r : EngineResult) : ExecOutcome × Task :=
  if !r.isCheckpoint then
    let nextStep := if stepId < 9 then stepId + 1 else 9
    let st := if stepId = 9 then Status.completed else Status.processing
    (.okAdvance stepId, updateTaskStep t nextStep st none none)
  else
    (.okAdvance stepId, t)

/-- The execute_step route. The task row is assumed to exist (the 404 path is
out of scope). The engine invocation of each branch is abstracted into the
HandlerOutcome argument; the arguments the route computes for that call
(selected topic, materials, word count, style profile) do not touch task state
and are dropped, except where they decide control flow (the step-4 topic
check). Note the unconditional first write: update_task_step(step_id,
processing) runs before any validation or engine work. -/
def executeStep (t : Task) (stepId : Nat) (req : ExecuteStepRequest)
    (h : HandlerOutcome) : ExecOutcome × Task :=
  let t1 := updateTaskStep t stepId .processing none none
  match stepId with
  | 1 =>
    match h with
    | .failure m => execFail t1 1 m
    | .success r =>
        let t2 := updateBriefData t1 [("step_1_output", .str r.output)]
        let t3 := addThinkAloudLog t2 1 r.thinkAloud
        execAdvance t3 1 r
  | 2 =>
    match h with
    | .failure m => execFail t1 2 m
    | .success r =>
        let srcs := JVal.arrOf (r.knowledgeSources.map .str)
        let t2 := updateKnowledgeData t1 r.output r.knowledgeSummary
        let t3 := updateBriefData t2
          [("step_2_output", .str r.output), ("knowledge_sources", srcs)]
        let t4 := addThinkAloudLog t3 2 r.thinkAloud
        let t5 := updateTaskToWaiting t4 2 (JVal.objOf
          [("knowledge_summary", .str r.knowledgeSummary),
           ("knowledge_sources", srcs),
           ("waiting_for", .str "knowledge_confirmation")])
        (.okCheckpoint 2, t5)
  | 3 =>
    match h with
    | .failure m => execFail t1 3 m
    | .success r =>
        let t2 := updateBriefData t1 [("step_3_output", .str r.output)]
        let t3 := addThinkAloudLog t2 3 r.thinkAloud
        let t4 := updateTaskToWaiting t3 3 (JVal.objOf
          [("topics", .str r.output), ("waiting_for", .str "topic_selection")])
        (.okCheckpoint 3, t4)
  | 4 =>
    let topic0 := match req.selectedTopic with | some s => s | none => ""
    let topic := if topic0.isEmpty then getStrKey t.briefData "selected_topic" else topic0
    if topic.isEmpty then (.httpError 400, t1)
    else
      match h with
      | .failure m => execFail t1 4 m
      | .success r =>
          let t2 := updateBriefData t1 [("step_4_output", .str r.output)]
          let t3 := addThinkAloudLog t2 4 r.thinkAloud
          execAdvance t3 4 r
  | 5 =>
    match h with
    | .failure m => execFail t1 5 m
    | .success r =>
        let t2 := updateBriefData t1
          [("step_5_output", .str r.output),
           ("retrieved_materials", r.retrievedMaterials),
           ("classified_materials", r.classifiedMaterials),
           ("style_profile", r.styleProfile),
           ("selected_sample", r.selectedSample),
           ("all_samples", r.allSamples)]
        let t3 := addThinkAloudLog t2 5 r.thinkAloud
        let t4 := updateTaskToWaiting t3 5 (JVal.objOf
          [("style_profile", r.styleProfile),
           ("waiting_for", .str "style_confirmation")])
        (.okCheckpoint 5, t4)
  | 6 =>
    match h with
    | .failure m => execFail t1 6 m
    | .success r =>
        let t2 := updateBriefData t1 [("step_6_output", .str r.output)]
        let t3 := addThinkAloudLog t2 6 r.thinkAloud
        let t4 := updateTaskToWaiting t3 6 (JVal.objOf
          [("checklist", .str r.output), ("waiting_for", .str "data_confirmation")])
        (.okCheckpoint 6, t4)
  | 7 =>
    match h with
    | .failure m => execFail t1 7 m
    | .success r =>
        let t2 := updateTaskStep t1 7 .processing (some r.output) none
        let t3 := updateBriefData t2 [("step_7_output", .str r.output)]
        let t4 := addThinkAloudLog t3 7 r.thinkAloud
        execAdvance t4 7 r
  | 8 =>
    match h with
    | .failure m => execFail t1 8 m
    | .success r =>
        let t2 := updateTaskStep t1 8 .processing none (some r.output)
        let t3 := updateBriefData t2 [("step_8_output", .str r.output)]
        let t4 := addThinkAloudLog t3 8 r.thinkAloud
        execAdvance t4 8 r
  | 9 =>
    match h with
    | .failure m => execFail t1 9 m
    | .success r =>
        let t2 := updateBriefData t1 [("step_9_output", .str r.output)]
        let t3 := addThinkAloudLog t2 9 r.thinkAloud
        let t4 := updateTaskStep t3 9 .completed none none
        execAdvance t4 9 r
  | _ => (.httpError 400, t1)

/-- Body of ConfirmStepRequest. The two dict-valued slots are JVal.null when
the field is absent, so Python truthiness is the truthy function. -/
structure ConfirmStepRequest where
  knowledgeConfirmed : Bool
  editedKnowledge : Option String
  selectedTopic : Option String
  styleConfirmed : Bool
  userStyleProfile : JVal
  selectedSample : JVal
  userMaterials : Option String
  deriving DecidableEq, Repr

/-- Outcome of the confirm_checkpoint route. -/
inductive ConfirmOutcome
  | ok (nextStep : Nat)
  | httpError (code : Nat)
  deriving DecidableEq, Repr

/-- Checkpoint-input recording of confirm_checkpoint: the brief_data updates
matching the current checkpoint step, and the task after the matching
think-aloud entries and knowledge edits (count detail lines inside the step-5
custom-style log text are elided). -/
def confirmUpdates (t : Task) (req : ConfirmStepRequest) :
    List (String × JVal) × Task :=
  let currentStep := t.currentStep
  (if currentStep = 2 ∧ req.knowledgeConfirmed then
        let tL :=
          match req.editedKnowledge with
          | some ek =>
              if ek.isEmpty then
                addThinkAloudLog t 2 "[用户确认] 已确认调研结论，进入选题阶段"
              else
                let tK := updateKnowledgeData t ek
                  (match t.knowledgeSummary with | some s => s | none => "")
                addThinkAloudLog tK 2
                  ("[用户确认] 已编辑并确认调研结论（" ++ toString ek.length ++ " 字）")
          | none => addThinkAloudLog t 2 "[用户确认] 已确认调研结论，进入选题阶段"
        ([("knowledge_confirmed", JVal.bool true)], tL)
      else if currentStep = 3 ∧ optStrTruthy req.selectedTopic then
        let topic := req.selectedTopic.getD ""
        ([("selected_topic", JVal.str topic)],
         addThinkAloudLog t 3 ("[用户确认] 选定选题:\n" ++ topic.take 200 ++ "..."))
      else if currentStep = 5 ∧ req.styleConfirmed then
        let su0 : List (String × JVal) := [("style_confirmed", JVal.bool true)]
        let (su1, tA) :=
          if truthy req.selectedSample then
            (su0 ++ [("selected_sample", req.selectedSample)],
             addThinkAloudLog t 5
               ("[用户确认] 选定标杆样文: 「" ++ jGetStr req.selectedSample "title" "未命名"
                 ++ "」\n后续创作将严格复刻此样文的写作风格与结构逻辑"))
          else (su0, t)
        if truthy req.userStyleProfile then
          (su1 ++ [("user_style_profile", req.userStyleProfile)],
           addThinkAloudLog tA 5 "[用户确认] 已自定义风格配置（覆盖样文默认特征）")
        else if !truthy req.selectedSample then
          (su1, addThinkAloudLog tA 5 "[用户确认] 无标杆样文，将使用频道基础人设进行创作")
        else (su1, tA)
      else if currentStep = 6 ∧ optStrTruthy req.userMaterials then
        let um := req.userMaterials.getD ""
        ([("user_materials", JVal.str um)],
         addThinkAloudLog t 6 ("[用户确认] 提供素材:\n" ++ um.take 200 ++ "..."))
      else ([], t))

/-- The confirm_checkpoint route: rejects with HTTP 400 unless the task status
is waiting_confirm; otherwise records the checkpoint inputs and logs and ends
with confirm_and_continue, which sets status processing and leaves
current_step untouched. The advertised next step of the HTTP response is
current_step + 1. -/
def confirmCheckpoint (t : Task) (req : ConfirmStepRequest) (now : String) :
    ConfirmOutcome × Task :=
  if t.status ≠ .waitingConfirm then (.httpError 400, t)
  else
    let currentStep := t.currentStep
    let (updates, t2) := confirmUpdates t req
    let t3 := if updates.isEmpty then t2 else updateBriefData t2 updates
    let t4 := confirmAndContinue t3 (JVal.objOf
      [("confirmed_at", .str now), ("step", .num currentStep)])
    (.ok (currentStep + 1), t4)

/-- Outcome of the abort_workflow route (it cannot fail on an existing task). -/
inductive AbortOutcome
  | ok (stoppedAtStep : Nat)
  deriving DecidableEq, Repr

/-- The abort_workflow route: update_task_step(current_step, aborted) plus an
abort log entry. No status precondition is checked. -/
def abortWorkflow (t : Task) : AbortOutcome × Task :=
  let t1 := updateTaskStep t t.currentStep .aborted none none
  let t2 := addThinkAloudLog t1 t.currentStep "⏹️ 用户已中止任务"
  (.ok t.currentStep, t2)

/-- One inbound call against a single task: execute, confirm or abort. -/
inductive Op
  | exec (stepId : Nat) (req : ExecuteStepRequest) (h : HandlerOutcome)
  | confirmOp (req : ConfirmStepRequest) (now : String)
  | abortOp
  deriving Repr

/-- Post-state of a task after one inbound call. -/
def applyOp (t : Task) : Op → Task
  | .exec s req h => (executeStep t s req h).2
  | .confirmOp req now => (confirmCheckpoint t req now).2
  | .abortOp => (abortWorkflow t).2

/-- Post-state after a sequence of inbound calls. -/
def runOps (t : Task) (ops : List Op) : Task := ops.foldl applyOp t

/-! Word-count extraction (extract_word_count in routes/workflow.py). The
eight regular expressions are each a sequence of literal characters, a
two-character class, an optional-whitespace gap and one greedy digit group, so
they are embedded as token lists with a backtracking matcher that follows the
search semantics of the re module: leftmost start wins, and at a fixed start
the greedy quantifiers backtrack. The whitespace and digit classes are
restricted to their ASCII parts. -/

/-- Whitespace test for the regex class backslash-s and for whitespace
stripping, restricted to ASCII whitespace. -/
def isWS (c : Char) : Bool := c = ' ' || c = '\t' || c = '\n' || c = '\r'

/-- Digit test for the regex class backslash-d, restricted to ASCII digits. -/
def isDigitChar (c : Char) : Bool := '0' ≤ c && c ≤ '9'

/-- Token of a word-count pattern: a literal character, a character class, an
optional-whitespace gap, or the captured digit group with its repetition
bounds (lower bound, optional upper bound). -/
inductive RTok
  | lit : Char → RTok
  | cls : List Char → RTok
  | wsStar : RTok
  | digits : Nat → Option Nat → RTok
  deriving DecidableEq, Repr

/-- First defined value in a list of options. -/
def firstSome {α : Type} : List (Option α) → Option α
  | [] => none
  | some a :: _ => some a
  | none :: l => firstSome l

/-- Length of the longest prefix whose characters satisfy the predicate. -/
def leadingCount (p : Char → Bool) : List Char → Nat
  | [] => 0
  | c :: cs => if p c then leadingCount p cs + 1 else 0

/-- Matches a token list against a prefix of the input, returning the
characters captured by the digit group. Greedy quantifiers try the longest
repetition first and backtrack. -/
def matchFrom : List RTok → List Char → Option (List Char)
  | [], _ => some []
  | .lit c :: ts, cs =>
      match cs with
      | d :: cs' => if d = c then matchFrom ts cs' else none
      | [] => none
  | .cls l :: ts, cs =>
      match cs with
      | d :: cs' => if l.contains d then matchFrom ts cs' else none
      | [] => none
  | .wsStar :: ts, cs =>
      let n := leadingCount isWS cs
      firstSome (((List.range (n + 1)).reverse).map (fun k => matchFrom ts (cs.drop k)))
  | .digits lo hi :: ts, cs =>
      let n := leadingCount isDigitChar cs
      let maxK := match hi with | some h => min h n | none => n
      firstSome ((((List.range (maxK + 1)).reverse).filter (fun k => lo ≤ k)).map
        (fun k => (matchFrom ts (cs.drop k)).map (fun _ => cs.take k)))

/-- re.search: try every start position from the left, return the first
capture. -/
def searchCapture (toks : List RTok) : List Char → Option (List Char)
  | [] => matchFrom toks []
  | c :: cs =>
      match matchFrom toks (c :: cs) with
      | some cap => some cap
      | none => searchCapture toks cs

/-- Numeric value of a captured digit run, as int() computes it. -/
def digitsToNat (ds : List Char) : Nat :=
  ds.foldl (fun acc c => acc * 10 + (c.toNat - Char.toNat '0')) 0

/-- The eight word-count patterns of extract_word_count, in priority order. -/
def wcPatterns : List (List RTok) :=
  [[.lit '期', .lit '望', .lit '字', .lit '数', .cls ['：', ':'], .wsStar, .digits 1 none],
   [.lit '字', .lit '数', .lit '要', .lit '求', .cls ['：', ':'], .wsStar, .digits 1 none],
   [.lit '字', .lit '数', .lit '限', .lit '制', .cls ['：', ':'], .wsStar, .digits 1 none],
   [.lit '字', .lit '数', .cls ['：', ':'], .wsStar, .digits 1 none],
   [.digits 3 (some 4), .lit '字', .lit '左', .lit '右'],
   [.digits 3 (some 4), .lit '字', .lit '以', .lit '内'],
   [.lit '约', .digits 3 (some 4), .lit '字'],
   [.digits 1 none, .wsStar, .lit '字']]

/-- Inner helper _extract_from_text: first pattern in order whose leftmost
match captures a value inside the plausible range 500..10000 wins; a pattern
whose match is out of range is skipped entirely; no pattern yields 0. -/
def extractFromText (patterns : List (List RTok)) (text : List Char) : Nat :=
  match patterns with
  | [] => 0
  | p :: ps =>
      match searchCapture p text with
      | some cap =>
          let wordCount := digitsToNat cap
          if 500 ≤ wordCount ∧ wordCount ≤ 10000 then wordCount
          else extractFromText ps text
      | none => extractFromText ps text

/-- extract_word_count: the user brief has priority over the step-1 analysis,
and 1500 is the fallback. -/
def extractWordCount (step1Output brief : String) : Nat :=
  let userWordCount := if brief.isEmpty then 0 else extractFromText wcPatterns brief.data
  if userWordCount > 0 then userWordCount
  else
    let aiWordCount :=
      if step1Output.isEmpty then 0 else extractFromText wcPatterns step1Output.data
    if aiWordCount > 0 then aiWordCount else 1500

/-- Values of the word-count expressions the text contains whose value lies in
the plausible range: for every pattern and every start position, the value
captured by a match there, filtered to 500..10000. This is the sentence a
word-count expression whose value lies in that range appears in the text,
stated over the embedding for comparison with what extract_word_count
returns. -/
def wordCountOccurrences (text : List Char) : List Nat :=
  ((wcPatterns.map (fun p => (text.tails.filterMap (matchFrom p)).map digitsToNat)).flatten).filter
    (fun v => 500 ≤ v && v ≤ 10000)

/-! Material curator (services/material_processor.py). Similarity scores are
floats in the source and rationals here; a material dict without a similarity
key reads as score 0, modelled by storing that default directly. -/

/-- One raw material dict as the curator sees it. -/
structure Mat where
  id : String
  content : String
  source : Option String
  similarity : ℚ
  deriving DecidableEq, Repr

/-- Whitespace removal re.sub over a text before shingling. -/
def stripWS (cs : List Char) : List Char := cs.filter (fun c => !isWS c)

/-- Character n-grams of a text: one slice per start position, as the list
comprehension over range(len(text) - n + 1) produces. -/
def charNgrams (cs : List Char) (n : Nat) : List (List Char) :=
  (List.range (cs.length + 1 - n)).map (fun i => (cs.drop i).take n)

/-- Character-level Jaccard similarity over deduplicated 2-gram sets
(_calculate_jaccard_similarity); the union size is the inclusion-exclusion
value of the two set sizes and the intersection size. -/
def jaccardSimilarity (textA textB : String) : ℚ :=
  if textA.isEmpty || textB.isEmpty then 0
  else
    let sa := (charNgrams (stripWS textA.data) 2).dedup
    let sb := (charNgrams (stripWS textB.data) 2).dedup
    if sa.isEmpty || sb.isEmpty then 0
    else
      let inter := (sa.filter (fun g => sb.contains g)).length
      let union := sa.length + sb.length - inter
      if union > 0 then mkRat inter union else 0

/-- filter_spam_materials: drop materials whose content matches the
promotional pattern set. The pattern set _SPAM_REGEX is configuration data,
abstracted into the predicate argument. -/
def filterSpamMaterials (isSpam : String → Bool) (mats : List Mat) : List Mat :=
  mats.filter (fun m => !isSpam m.content)

/-- Grouping key of dedupe_by_source: source, falling back to id, falling back
to the literal unknown. -/
def sourceKeyOf (m : Mat) : String :=
  match m.source with
  | some s => if s.isEmpty then (if m.id.isEmpty then "unknown" else m.id) else s
  | none => if m.id.isEmpty then "unknown" else m.id

/-- dedupe_by_source: one insertion-ordered map from source key to the
best-scored material of that key, ties keeping the first seen; the output is
the values of the map in key-first-seen order. -/
def dedupeBySource (mats : List Mat) : List Mat :=
  if mats.isEmpty then []
  else
    (mats.foldl (fun smap mat =>
      let key := sourceKeyOf mat
      match smap.lookup key with
      | none => smap ++ [(key, mat)]
      | some existing =>
          if mat.similarity > existing.similarity then
            smap.map (fun p => if p.1 = key then (key, mat) else p)
          else smap) ([] : List (String × Mat))).map (fun p => p.2)

/-- Inner scan of dedupe_by_content_similarity: the first already-kept
material whose similarity with the candidate exceeds the threshold. -/
def findDup (threshold : ℚ) (mat : Mat) : List Mat → Option Mat
  | [] => none
  | e :: es =>
      if jaccardSimilarity mat.content e.content > threshold then some e
      else findDup threshold mat es

/-- Loop body of dedupe_by_content_similarity for one candidate: it joins the
result, is dropped as a duplicate of the first similar kept item, or replaces
that item (removal plus append at the end) when its score is strictly
higher. -/
def dedupeStep (threshold : ℚ) (result : List Mat) (mat : Mat) : List Mat :=
  match findDup threshold mat result with
  | some existing =>
      if mat.similarity > existing.similarity then result.erase existing ++ [mat]
      else result
  | none => result ++ [mat]

/-- dedupe_by_content_similarity: lists of at most one material pass through,
otherwise the loop body runs over the materials in order. -/
def dedupeByContentSimilarity (mats : List Mat) (threshold : ℚ) : List Mat :=
  if mats.length ≤ 1 then mats
  else mats.foldl (dedupeStep threshold) []

/-- process_materials: spam filter, then source dedup, then content dedup,
each stage behind its flag; empty input returns immediately. -/
def processMaterials (isSpam : String → Bool) (mats : List Mat)
    (enableSpamFilter enableSourceDedupe enableContentDedupe : Bool)
    (contentSimilarityThreshold : ℚ) : List Mat :=
  if mats.isEmpty then []
  else
    let result := mats
    let result := if enableSpamFilter then filterSpamMaterials isSpam result else result
    let result := if enableSourceDedupe then dedupeBySource result else result
    let result :=
      if enableContentDedupe then dedupeByContentSimilarity result contentSimilarityThreshold
      else result
    result

/-- Keep the better-scored of the kept material and a newcomer, the kept one
on ties. -/
def keepMax (b m : Mat) : Mat := if m.similarity > b.similarity then m else b

/-- First-seen maximum by similarity score: the element a left fold keeps when
replacement happens only on strictly higher score. -/
def maxFirstSeen (mats : List Mat) : Option Mat :=
  mats.foldl (fun acc m =>
    match acc with
    | none => some m
    | some b => some (keepMax b m)) none

/-! Material retrieval (db_service.py). One personal_materials row; the
embedding column is reduced to its presence flag plus an abstract distance
function standing for the pgvector distance of the row to the query vector. -/

/-- One personal_materials row. -/
structure MaterialRow where
  id : String
  channelId : Option String
  content : String
  materialType : String
  source : String
  hasEmbedding : Bool
  createdAt : Nat
  deriving DecidableEq, Repr

/-- The channel-isolation filter every retrieval query applies:
channel_id = requested or channel_id is null. -/
def channelFilterOk (requested : String) (m : MaterialRow) : Bool :=
  m.channelId == some requested || m.channelId == none

/-- A keyword hit content ilike percent-kw-percent, case-insensitively. -/
def containsSubstr (content kw : String) : Bool :=
  decide (List.IsInfix kw.toLower.data content.toLower.data)

/-- search_materials_by_keywords: channel filter, then any-keyword match when
keywords were given, then the row limit. -/
def searchMaterialsByKeywords (db : List MaterialRow) (channelId : String)
    (keywords : List String) (lim : Nat) : List MaterialRow :=
  let q := db.filter (channelFilterOk channelId)
  let q :=
    if keywords.isEmpty then q
    else q.filter (fun m => keywords.any (fun kw => containsSubstr m.content kw))
  q.take lim

/-- search_materials_by_embedding: rows with an embedding passing the channel
filter, ordered by vector distance, first top_k. -/
def searchMaterialsByEmbedding (db : List MaterialRow) (channelId : String)
    (dist : MaterialRow → ℚ) (topK : Nat) : List MaterialRow :=
  let q := db.filter (fun m => m.hasEmbedding && channelFilterOk channelId m)
  (q.mergeSort (fun a b => decide (dist a ≤ dist b))).take topK

/-- get_materials_by_channel: channel filter, optional type filter, newest
first, row limit. -/
def getMaterialsByChannel (db : List MaterialRow) (channelId : String)
    (materialType : Option String) (lim : Nat) : List MaterialRow :=
  let q := db.filter (channelFilterOk channelId)
  let q :=
    match materialType with
    | some mt => q.filter (fun (m : MaterialRow) => m.materialType == mt)
    | none => q
  (q.mergeSort (fun a b => decide (b.createdAt ≤ a.createdAt))).take lim

/-! Style resolution (workflow_engine.py). -/

/-- One already-analyzed style sample as get_style_samples_for_matching
returns it: the styleProfile field is the dict selected_sample.get
with default empty, so an absent profile is JVal.null or JVal.onil. -/
structure SampleRecord where
  title : String
  styleProfile : JVal
  deriving DecidableEq, Repr

/-- Channel fields the step-5 fallback chain reads. -/
structure ChannelData where
  id : String
  styleProfile : JVal
  styleSamples : List JVal
  deriving DecidableEq, Repr

/-- Legacy fallback loop of step 5: the features dict of the first old-format
sample that has truthy features, else null. -/
def firstLegacyFeatures : List JVal → JVal
  | [] => .null
  | s :: ss => if truthy (jGet s "features") then jGet s "features" else firstLegacyFeatures ss

/-- The hardcoded default style profile of execute_step_5 (the tone dict of
the source also carries formality 0.3, a float elided here). -/
def defaultStyleProfile : JVal := JVal.objOf
  [("style_portrait", .str "专业而亲切的内容创作者，用真诚的态度分享观点"),
   ("structural_logic", JVal.arrOf
     [.str "场景切入", .str "问题引出", .str "观点展开", .str "案例支撑", .str "总结升华"]),
   ("tone_features", JVal.arrOf [.str "真诚", .str "专业", .str "亲切"]),
   ("opening_style", JVal.objOf
     [("type", .str "story_intro"), ("description", .str "建议用生活场景引入")]),
   ("tone", JVal.objOf
     [("type", .str "warm_friend"), ("description", .str "温润亲切，像朋友聊天")]),
   ("ending_style", JVal.objOf
     [("type", .str "reflection"), ("description", .str "引导读者思考")]),
   ("writing_guidelines", JVal.arrOf
     [.str "避免说教语气", .str "多用短句", .str "融入真实经历"])]

/-- Style-profile selection of execute_step_5: profile of the recommended
sample (the head of the matching list) when truthy, else the channel profile,
else the first legacy sample features, else the hardcoded default. -/
def step5StyleProfile (channelData : Option ChannelData)
    (allSamples : List SampleRecord) : JVal :=
  let sp0 : JVal :=
    match channelData with
    | some _ =>
        match allSamples with
        | s :: _ => s.styleProfile
        | [] => JVal.null
    | none => JVal.null
  let sp1 :=
    if !truthy sp0 then
      match channelData with
      | some cd =>
          if truthy cd.styleProfile then cd.styleProfile
          else firstLegacyFeatures cd.styleSamples
      | none => JVal.null
    else sp0
  if !truthy sp1 then defaultStyleProfile else sp1

/-- Style-source selection of execute_step_7 (whole-object precedence chain):
the passed style_profile when it is truthy and marked is_customized, else the
selected sample profile, else the passed style_profile, else none; paired
with the style_source label. -/
def step7EffectiveStyle (styleProfile : JVal) (selectedSample : JVal) :
    JVal × String :=
  if truthy styleProfile ∧ truthy (jGet styleProfile "is_customized") then
    (styleProfile, "用户自定义")
  else if truthy selectedSample ∧ truthy (jGet selectedSample "style_profile") then
    (jGet selectedSample "style_profile",
     "样文《" ++ jGetStr selectedSample "title" "未知" ++ "》")
  else if truthy styleProfile then (styleProfile, "频道风格画像")
  else (JVal.null, "默认")

/-- Profile the execute_step route passes into step 7: the user style profile
recorded at the step-5 confirmation when truthy, else the stored step-5
profile with default empty dict. -/
def routeStep7StyleProfile (briefData : List (String × JVal)) : JVal :=
  let u := getKey briefData "user_style_profile"
  if truthy u then u
  else match briefData.lookup "style_profile" with
       | some v => v
       | none => .onil

/-- Field-level precedence resolution in the words of the specification, for
comparison with the selection chain of the code: each field independently
comes from the customized user override when the override provides it, else
from the selected sample profile. -/
def specFieldLevelStyle (overrideProfile sampleProfile : JVal) (field : String) : JVal :=
  if truthy (jGet overrideProfile field) then jGet overrideProfile field
  else jGet sampleProfile field

/-! Concrete instances used by the counterexample and witness theorems. -/

/-- Is the outcome a raised HTTPException. -/
def execRejected : ExecOutcome → Bool
  | .httpError _ => true
  | _ => false

/-- Empty execute request body. -/
def reqNone : ExecuteStepRequest := ⟨none, none⟩

/-- Execute request carrying a selected topic. -/
def reqTopic : ExecuteStepRequest := ⟨some "T", none⟩

/-- Generic engine result of a non-checkpoint step handler (the returned dict
has no is_checkpoint key). -/
def rEng : EngineResult :=
  ⟨"OUT", "TA", "", [], .onil, .anil, .onil, .null, .anil, false⟩

/-- Generic engine result of a checkpoint step handler (is_checkpoint true in
the dicts of steps 2, 3 and 6). -/
def rEngCk : EngineResult :=
  ⟨"OUT", "TA", "KS", ["src"], .onil, .anil, .onil, .null, .anil, true⟩

/-- Engine result of the step-5 handler with a recognizable output text (the
step-5 dict carries no is_checkpoint key). -/
def rEngStyle5 : EngineResult :=
  ⟨"STYLEGUIDE", "TA5", "", [], .onil, .anil, .onil, .null, .anil, false⟩

/-- A task already aborted at step 3. -/
def cexAbortedTask : Task :=
  { currentStep := 3, status := .aborted, briefData := [],
    knowledgeBaseData := none, knowledgeSummary := none,
    draftContent := none, finalContent := none, thinkAloudLogs := [] }

/-- A task aborted while parked at the step-5 checkpoint. -/
def cexAborted5Task : Task :=
  { currentStep := 5, status := .aborted, briefData := [],
    knowledgeBaseData := none, knowledgeSummary := none,
    draftContent := none, finalContent := none, thinkAloudLogs := [] }

/-- A task parked at the step-2 research checkpoint. -/
def cexWaiting2Task : Task :=
  { currentStep := 2, status := .waitingConfirm, briefData := [],
    knowledgeBaseData := some "KB", knowledgeSummary := some "KS",
    draftContent := none, finalContent := none, thinkAloudLogs := [] }

/-- A task at step 5 in processing state (before the step-5 execute). -/
def cexProcessing5Task : Task :=
  { currentStep := 5, status := .processing, briefData := [],
    knowledgeBaseData := none, knowledgeSummary := none,
    draftContent := none, finalContent := none, thinkAloudLogs := [] }

/-- Confirm request carrying only knowledge_confirmed=true. -/
def reqKnowledgeConfirm : ConfirmStepRequest :=
  ⟨true, none, none, false, .null, .null, none⟩

/-- Style override as recorded at the step-5 confirmation: customized, and
providing only the opening_style field. -/
def cexOverrideProfile : JVal :=
  JVal.objOf [("is_customized", .bool true), ("opening_style", .str "O1")]

/-- Selected sample whose profile provides both opening_style and
ending_style. -/
def cexSelectedSample : JVal :=
  JVal.objOf [("title", .str "T"),
    ("style_profile", JVal.objOf
      [("opening_style", .str "O2"), ("ending_style", .str "E2")])]

/-- Shared 41-character core of the near-duplicate contents: its 2-gram set
has 40 elements. -/
def dupCore : String := "abcdefghijklmnopqrstuvwxyz0123456789ABCDE"

/-- Near-duplicate of the core with five extra trailing grams. -/
def dupS1Content : String := dupCore ++ "FGHIJ"

/-- Bridge content: also five extra trailing grams, but disjoint from the
extras of the other variant, so it is near the core yet not near the other
variant. -/
def dupBridgeContent : String := dupCore ++ "VWXYZ"

/-- Bridge material, similarity 0.5. -/
def matBridge : Mat := ⟨"y", dupBridgeContent, some "sy", mkRat 1 2⟩

/-- First member of the near-duplicate pair, similarity 0.4. -/
def matS1 : Mat := ⟨"s1", dupS1Content, some "s1", mkRat 2 5⟩

/-- Second member of the near-duplicate pair, similarity 0.6. -/
def matS2 : Mat := ⟨"s2", dupCore, some "s2", mkRat 3 5⟩

/-! Helper lemmas. -/

theorem lookup_setKey_self (m : List (String × JVal)) (k : String) (v : JVal) :
    (setKey m k v).lookup k = some v := by
  induction m with
  | nil => simp [setKey, List.lookup]
  | cons p rest ih =>
      obtain ⟨k', v'⟩ := p
      by_cases h : k' = k
      · simp [setKey, h, List.lookup]
      · have hne : (k == k') = false := by
          simp [beq_iff_eq]
          exact fun heq => h heq.symm
        simp [setKey, h, List.lookup, hne, ih]

theorem lookup_setKey_ne (m : List (String × JVal)) (k k' : String) (v : JVal)
    (h : k' ≠ k) : (setKey m k v).lookup k' = m.lookup k' := by
  induction m with
  | nil =>
      have hne : (k' == k) = false := by simp [beq_iff_eq, h]
      simp [setKey, List.lookup, hne]
  | cons p rest ih =>
      obtain ⟨k'', v''⟩ := p
      by_cases hk : k'' = k
      · subst hk
        have hne : (k' == k'') = false := by simp [beq_iff_eq, h]
        simp [setKey, List.lookup, hne]
      · by_cases hk' : k' = k''
        · simp [setKey, hk, List.lookup, hk', ih]
        · have hne : (k' == k'') = false := by simp [beq_iff_eq, hk']
          simp [setKey, hk, List.lookup, hne, ih]

theorem channelFilterOk_iff (ch : String) (m : MaterialRow) :
    channelFilterOk ch m = true ↔ (m.channelId = some ch ∨ m.channelId = none) := by
  simp [channelFilterOk]

@[simp] theorem truthy_null : truthy .null = false := rfl

/-! Claim theorems. -/

/-- C5: every material returned by a keyword search, an embedding search or a
by-channel listing for a requested channel has channel_ref equal to that
channel or channel_ref null; hence a material of channel A never appears in
results filtered for a different channel B, and null-channel materials pass
the channel filter of every request. -/
theorem C5_channel_isolation :
    (∀ db ch kws lim m, m ∈ searchMaterialsByKeywords db ch kws lim →
       m.channelId = some ch ∨ m.channelId = none) ∧
    (∀ db ch dist topK m, m ∈ searchMaterialsByEmbedding db ch dist topK →
       m.channelId = some ch ∨ m.channelId = none) ∧
    (∀ db ch mt lim m, m ∈ getMaterialsByChannel db ch mt lim →
       m.channelId = some ch ∨ m.channelId = none) ∧
    (∀ db chA chB kws lim m, m ∈ searchMaterialsByKeywords db chB kws lim →
       m.channelId = some chA → chA = chB) ∧
    (∀ (ch : String) (m : MaterialRow), m.channelId = none →
       channelFilterOk ch m = true) := by
  have hkw : ∀ db ch kws lim m, m ∈ searchMaterialsByKeywords db ch kws lim →
      m.channelId = some ch ∨ m.channelId = none := by
    intro db ch kws lim m hm
    unfold searchMaterialsByKeywords at hm
    have hm' := List.take_subset _ _ hm
    rw [← channelFilterOk_iff]
    by_cases hk : kws.isEmpty
    · simp only [hk, if_pos] at hm'
      exact (List.mem_filter.mp hm').2
    · simp only [hk, if_neg, Bool.false_eq_true, not_false_iff] at hm'
      have := (List.mem_filter.mp hm').1
      exact (List.mem_filter.mp this).2
  refine ⟨hkw, ?_, ?_, ?_, ?_⟩
  · intro db ch dist topK m hm
    unfold searchMaterialsByEmbedding at hm
    have hm' := List.take_subset _ _ hm
    rw [List.mem_mergeSort] at hm'
    have := (List.mem_filter.mp hm').2
    rw [Bool.and_eq_true] at this
    exact (channelFilterOk_iff ch m).mp this.2
  · intro db ch mt lim m hm
    unfold getMaterialsByChannel at hm
    have hm' := List.take_subset _ _ hm
    rw [List.mem_mergeSort] at hm'
    rw [← channelFilterOk_iff]
    cases mt with
    | none => exact (List.mem_filter.mp hm').2
    | some s =>
        simp only [] at hm'
        have := (List.mem_filter.mp hm').1
        exact (List.mem_filter.mp this).2
  · intro db chA chB kws lim m hm hA
    rcases hkw db chB kws lim m hm with h | h
    · rw [hA] at h; exact (Option.some_injective _ h).symm ▸ rfl
    · rw [hA] at h; cases h
  · intro ch m hm
    rw [channelFilterOk_iff]
    right; exact hm

/-- C5 witness: a null-channel material passes the filter of a concrete
channel. -/
theorem C5_channel_isolation_witness :
    channelFilterOk "A" ⟨"m1", none, "c", "t", "s", false, 0⟩ = true :=
  C5_channel_isolation.2.2.2.2 "A" ⟨"m1", none, "c", "t", "s", false, 0⟩ rfl

theorem firstLegacyFeatures_eq_null (l : List JVal)
    (h : ∀ s ∈ l, truthy (jGet s "features") = false) :
    firstLegacyFeatures l = .null := by
  induction l with
  | nil => rfl
  | cons s ss ih =>
      have hs := h s (by simp)
      simp only [firstLegacyFeatures, hs, Bool.false_eq_true, if_false]
      exact ih fun x hx => h x (by simp [hx])

/-- C9: the step-5 style resolver is total and never yields an empty profile;
in particular, when the recommended sample has no truthy profile (or there is
no sample at all), the channel has no stored profile and no legacy sample
features exist (or the channel itself is missing), it returns exactly the
hardcoded minimal default, whose dimensions are the story-intro opening, the
warm-friend tone and the reflection ending. -/
theorem C9_style_resolver_fallback :
    (∀ cd samples, truthy (step5StyleProfile cd samples) = true) ∧
    (∀ (cd : Option ChannelData) (samples : List SampleRecord),
       (∀ s, samples.head? = some s → truthy s.styleProfile = false) →
       (∀ c, cd = some c → truthy c.styleProfile = false ∧
          ∀ s ∈ c.styleSamples, truthy (jGet s "features") = false) →
       step5StyleProfile cd samples = defaultStyleProfile) ∧
    jGet (jGet defaultStyleProfile "opening_style") "type" = .str "story_intro" ∧
    jGet (jGet defaultStyleProfile "tone") "type" = .str "warm_friend" ∧
    jGet (jGet defaultStyleProfile "ending_style") "type" = .str "reflection" ∧
    truthy defaultStyleProfile = true := by
  have hdef : truthy defaultStyleProfile = true := by decide
  refine ⟨?_, ?_, by decide, by decide, by decide, hdef⟩
  · intro cd samples
    cases cd with
    | none => simp [step5StyleProfile, hdef]
    | some c =>
        cases samples with
        | nil =>
            cases hc : truthy c.styleProfile with
            | true => simp [step5StyleProfile, hc]
            | false =>
                cases hf : truthy (firstLegacyFeatures c.styleSamples) with
                | true => simp [step5StyleProfile, hc, hf]
                | false => simp [step5StyleProfile, hc, hf, hdef]
        | cons s ss =>
            cases hs : truthy s.styleProfile with
            | true => simp [step5StyleProfile, hs]
            | false =>
                cases hc : truthy c.styleProfile with
                | true => simp [step5StyleProfile, hs, hc]
                | false =>
                    cases hf : truthy (firstLegacyFeatures c.styleSamples) with
                    | true => simp [step5StyleProfile, hs, hc, hf]
                    | false => simp [step5StyleProfile, hs, hc, hf, hdef]
  · intro cd samples h1 h2
    cases cd with
    | none => simp [step5StyleProfile]
    | some c =>
        have hc := (h2 c rfl).1
        have hf : firstLegacyFeatures c.styleSamples = .null :=
          firstLegacyFeatures_eq_null _ (h2 c rfl).2
        cases samples with
        | nil => simp [step5StyleProfile, hc, hf]
        | cons s ss =>
            have hs := h1 s rfl
            simp [step5StyleProfile, hs, hc, hf]

/-- C9 witness: with no channel and no samples the resolver yields the
default profile, which is truthy. -/
theorem C9_style_resolver_fallback_witness :
    step5StyleProfile none [] = defaultStyleProfile :=
  C9_style_resolver_fallback.2.1 none [] (fun s h => by cases h)
    (fun c h => by cases h)

/-- C6: the claim of field-level style precedence is false on the code. With a
customized override providing only opening_style and a selected sample whose
profile provides opening_style and ending_style, the field-level resolution of
the spec yields the override opening and the sample ending, but the step-7
selection chain takes the override as a whole object: its resolved
ending_style is null, not the sample value. -/
theorem C6_counterexample :
    specFieldLevelStyle cexOverrideProfile (jGet cexSelectedSample "style_profile")
        "opening_style" = .str "O1" ∧
    specFieldLevelStyle cexOverrideProfile (jGet cexSelectedSample "style_profile")
        "ending_style" = .str "E2" ∧
    (step7EffectiveStyle cexOverrideProfile cexSelectedSample).1 = cexOverrideProfile ∧
    jGet (step7EffectiveStyle cexOverrideProfile cexSelectedSample).1
        "opening_style" = .str "O1" ∧
    jGet (step7EffectiveStyle cexOverrideProfile cexSelectedSample).1
        "ending_style" = JVal.null ∧
    JVal.null ≠ JVal.str "E2" := by
  refine ⟨by decide, by decide, by decide, by decide, by decide, by decide⟩

/-- C6 amended: style resolution is whole-object precedence, not a field-level
merge. When the passed profile is truthy and marked is_customized it is taken
wholesale and fields it lacks stay null even if the sample provides them; when
it is not customized and the selected sample has a truthy profile, that sample
profile is taken wholesale. -/
theorem C6_amended :
    (∀ ovr smp f, truthy ovr = true → truthy (jGet ovr "is_customized") = true →
       (step7EffectiveStyle ovr smp).1 = ovr ∧
       (jGet ovr f = .null → jGet (step7EffectiveStyle ovr smp).1 f = .null)) ∧
    (∀ ovr smp, truthy (jGet ovr "is_customized") = false →
       truthy smp = true → truthy (jGet smp "style_profile") = true →
       (step7EffectiveStyle ovr smp).1 = jGet smp "style_profile") := by
  constructor
  · intro ovr smp f h1 h2
    have hsel : (step7EffectiveStyle ovr smp).1 = ovr := by
      simp [step7EffectiveStyle, h1, h2]
    exact ⟨hsel, fun hf => by rw [hsel]; exact hf⟩
  · intro ovr smp h1 h2 h3
    simp [step7EffectiveStyle, h1, h2, h3]

/-- C6 witness: the amended selection applied to the concrete override and
sample of the counterexample input. -/
theorem C6_amended_witness :
    (step7EffectiveStyle cexOverrideProfile cexSelectedSample).1 = cexOverrideProfile ∧
    (step7EffectiveStyle JVal.null cexSelectedSample).1 =
      jGet cexSelectedSample "style_profile" :=
  ⟨(C6_amended.1 cexOverrideProfile cexSelectedSample "ending_style"
      (by decide) (by decide)).1,
   C6_amended.2 JVal.null cexSelectedSample (by decide) (by decide) (by decide)⟩

theorem extractFromText_range (ps : List (List RTok)) (text : List Char) :
    extractFromText ps text = 0 ∨
      (500 ≤ extractFromText ps text ∧ extractFromText ps text ≤ 10000) := by
  induction ps with
  | nil => exact Or.inl rfl
  | cons p ps ih =>
      simp only [extractFromText]
      cases hsc : searchCapture p text with
      | none => exact ih
      | some cap =>
          by_cases h : 500 ≤ digitsToNat cap ∧ digitsToNat cap ≤ 10000
          · simp only [h, if_true]
            exact Or.inr h
          · simp only [h, if_false]
            exact ih

theorem searchCapture_sound (toks : List RTok) :
    ∀ (cs : List Char) (cap : List Char), searchCapture toks cs = some cap →
      ∃ suf, suf <:+ cs ∧ matchFrom toks suf = some cap := by
  intro cs
  induction cs with
  | nil =>
      intro cap h
      exact ⟨[], List.suffix_rfl, h⟩
  | cons c cs ih =>
      intro cap h
      simp only [searchCapture] at h
      cases hm : matchFrom toks (c :: cs) with
      | some cap2 =>
          rw [hm] at h
          exact ⟨c :: cs, List.suffix_rfl, by rw [hm]; exact h⟩
      | none =>
          rw [hm] at h
          obtain ⟨suf, hs, hmf⟩ := ih cap h
          exact ⟨suf, hs.trans (List.suffix_cons c cs), hmf⟩

theorem extractFromText_mem_occurrences (text : List Char) :
    ∀ (ps : List (List RTok)), (∀ p ∈ ps, p ∈ wcPatterns) →
      extractFromText ps text ≠ 0 →
      extractFromText ps text ∈ wordCountOccurrences text := by
  intro ps
  induction ps with
  | nil => intro _ h; exact absurd rfl h
  | cons p ps ih =>
      intro hsub h
      simp only [extractFromText] at h ⊢
      cases hsc : searchCapture p text with
      | none =>
          rw [hsc] at h
          exact ih (fun q hq => hsub q (List.mem_cons_of_mem _ hq)) h
      | some cap =>
          rw [hsc] at h
          by_cases hr : 500 ≤ digitsToNat cap ∧ digitsToNat cap ≤ 10000
          · simp only [hr, if_true] at h ⊢
            obtain ⟨suf, hsuf, hm⟩ := searchCapture_sound p text cap hsc
            unfold wordCountOccurrences
            rw [List.mem_filter]
            refine ⟨?_, by simp [hr.1, hr.2]⟩
            rw [List.mem_flatten]
            refine ⟨(text.tails.filterMap (matchFrom p)).map digitsToNat, ?_, ?_⟩
            · exact List.mem_map_of_mem _ (hsub p (by simp))
            · exact List.mem_map_of_mem _
                (List.mem_filterMap.mpr ⟨suf, (List.mem_tails suf text).mpr hsuf, hm⟩)
          · simp only [hr, if_false] at h ⊢
            exact ih (fun q hq => hsub q (List.mem_cons_of_mem _ hq)) h

/-- C10 (amended): extract_word_count always returns a value in 500..10000.
The extraction runs the eight patterns in priority order; when the brief
yields a nonzero value that value is returned, taking precedence over the
step-1 text, and it is the value of an actual in-range word-count occurrence
of the brief; when the brief yields nothing and the step-1 text yields a
nonzero value that one is returned; otherwise the default 1500. (The original
claim, that any in-range occurrence in the brief forces its value to be
returned, fails: an earlier out-of-range match of the same pattern makes the
pattern give up.) -/
theorem C10_amended : ∀ step1Output brief : String,
    (500 ≤ extractWordCount step1Output brief ∧
      extractWordCount step1Output brief ≤ 10000) ∧
    (extractFromText wcPatterns brief.data ≠ 0 → brief.isEmpty = false →
       extractWordCount step1Output brief = extractFromText wcPatterns brief.data ∧
       extractFromText wcPatterns brief.data ∈ wordCountOccurrences brief.data) ∧
    ((brief.isEmpty = true ∨ extractFromText wcPatterns brief.data = 0) →
       (step1Output.isEmpty = false → extractFromText wcPatterns step1Output.data ≠ 0 →
          extractWordCount step1Output brief =
            extractFromText wcPatterns step1Output.data) ∧
       ((step1Output.isEmpty = true ∨ extractFromText wcPatterns step1Output.data = 0) →
          extractWordCount step1Output brief = 1500)) := by
  intro s b
  have hrb := extractFromText_range wcPatterns b.data
  have hrs := extractFromText_range wcPatterns s.data
  refine ⟨?_, ?_, ?_⟩
  · simp only [extractWordCount]
    split_ifs <;> omega
  · intro hne hbe
    refine ⟨?_, extractFromText_mem_occurrences b.data wcPatterns (fun p hp => hp) hne⟩
    simp [extractWordCount, hbe, Nat.pos_of_ne_zero hne]
  · intro hor
    have hu : (if b.isEmpty then 0 else extractFromText wcPatterns b.data) = 0 := by
      rcases hor with h | h
      · simp [h]
      · simp [h]
    constructor
    · intro hse hne
      simp [extractWordCount, hu, hse, Nat.pos_of_ne_zero hne]
    · intro hor2
      have ha : (if s.isEmpty then 0 else extractFromText wcPatterns s.data) = 0 := by
        rcases hor2 with h | h
        · simp [h]
        · simp [h]
      simp [extractWordCount, hu, ha]

/-- C10 witness: a brief stating the expected count 2000 is extracted as 2000,
2000 is an in-range occurrence of the brief, and the step-1 text is ignored. -/
theorem C10_amended_witness :
    extractWordCount "期望字数：900" "期望字数：2000" =
      extractFromText wcPatterns ("期望字数：2000".data) ∧
    extractFromText wcPatterns ("期望字数：2000".data) ∈
      wordCountOccurrences ("期望字数：2000".data) :=
  (C10_amended "期望字数：900" "期望字数：2000").2.1 (by decide) (by decide)

/-- C10 counterexample: the brief 1字800字 contains exactly one in-range
word-count occurrence, of value 800, yet extract_word_count returns the
default 1500: the leftmost match of the last pattern is the out-of-range 1字,
and a pattern whose leftmost match is out of range is abandoned entirely. -/
theorem C10_counterexample :
    wordCountOccurrences ("1字800字".data) = [800] ∧
    extractWordCount "" "1字800字" = 1500 ∧ (1500 : Nat) ≠ 800 := by
  exact ⟨by decide, by decide, by decide⟩

theorem maxFirstSeen_cons (m : Mat) (rest : List Mat) :
    maxFirstSeen (m :: rest) = some (rest.foldl keepMax m) := by
  have hfold : ∀ (l : List Mat) (b : Mat),
      List.foldl (fun acc x => match acc with
        | none => some x
        | some b' => some (keepMax b' x)) (some b) l = some (l.foldl keepMax b) := by
    intro l
    induction l with
    | nil => intro b; rfl
    | cons x xs ih => intro b; simpa using ih (keepMax b x)
  simpa [maxFirstSeen] using hfold rest m

theorem dedupe_foldl_pairwise (thr : ℚ) (S : List Mat)
    (hS : ∀ a ∈ S, ∀ b ∈ S, thr < jaccardSimilarity a.content b.content) :
    ∀ (toGo : List Mat), (∀ m ∈ toGo, m ∈ S) → ∀ b, b ∈ S →
      List.foldl (dedupeStep thr) [b] toGo = [toGo.foldl keepMax b] := by
  intro toGo
  induction toGo with
  | nil => intro _ b _; rfl
  | cons m rest ih =>
      intro hin b hb
      have hm : m ∈ S := hin m (by simp)
      have hsim : thr < jaccardSimilarity m.content b.content := hS m hm b hb
      have hstep : dedupeStep thr [b] m = [keepMax b m] := by
        unfold dedupeStep findDup
        rw [if_pos hsim]
        by_cases hgt : m.similarity > b.similarity
        · simp [hgt, keepMax, List.erase_cons_head]
        · simp [hgt, keepMax]
      rw [List.foldl_cons, hstep]
      have hb2 : keepMax b m ∈ S := by
        unfold keepMax
        split_ifs
        exacts [hm, hb]
      simpa using ih (fun x hx => hin x (by simp [hx])) (keepMax b m) hb2

/-- C8 counterexample: the pair of near-duplicate materials (pairwise 2-gram
Jaccard similarity 8/9, above the 0.85 threshold) appears twice in the input,
yet both members survive the content dedup: the higher-scored one replaced a
third, bridging material and was re-appended after the scan had already
accepted the other member, so the two were never compared. The claim of at
most one survivor per pairwise-duplicate set, the highest-scored one, is
false on the code. -/
theorem C8_counterexample :
    mkRat 85 100 < jaccardSimilarity matS1.content matS2.content ∧
    mkRat 85 100 < jaccardSimilarity matS2.content matS1.content ∧
    dedupeByContentSimilarity [matBridge, matS1, matS2] (mkRat 85 100) = [matS1, matS2] ∧
    matS1.similarity < matS2.similarity := by
  exact ⟨by decide, by decide, by decide, by decide⟩

/-- C8 (amended): empty input yields empty output without error; and when the
WHOLE input list is one pairwise near-duplicate set (every pair of members has
similarity above the threshold), the content dedup keeps exactly one survivor,
the first-seen highest-scored member. For a duplicate set embedded in a longer
list the at-most-one-survivor property fails (see the counterexample): a
replacement is appended at the end of the kept list after the scan stopped at
the first similar kept item, so it is never compared with later kept items. -/
theorem C8_amended :
    (∀ isSpam f1 f2 f3 thr, processMaterials isSpam [] f1 f2 f3 thr = []) ∧
    (∀ (mats : List Mat) (thr : ℚ),
       (∀ a ∈ mats, ∀ b ∈ mats, thr < jaccardSimilarity a.content b.content) →
       dedupeByContentSimilarity mats thr = (maxFirstSeen mats).toList) := by
  constructor
  · intro isSpam f1 f2 f3 thr; rfl
  · intro mats thr hS
    cases mats with
    | nil => rfl
    | cons m rest =>
        cases rest with
        | nil => rfl
        | cons m2 rest2 =>
            have hlen : ¬ (m :: m2 :: rest2).length ≤ 1 := by simp
            unfold dedupeByContentSimilarity
            rw [if_neg hlen, List.foldl_cons]
            have hfirst : dedupeStep thr [] m = [m] := rfl
            rw [hfirst,
              dedupe_foldl_pairwise thr (m :: m2 :: rest2) hS (m2 :: rest2)
                (fun x hx => by simp [hx]) m (by simp),
              maxFirstSeen_cons]
            rfl

/-- C8 witness: the empty-input clause at concrete flags, and the
single-survivor clause on a concrete singleton duplicate set. -/
theorem C8_amended_witness :
    processMaterials (fun _ => false) [] true true true (mkRat 85 100) = [] ∧
    dedupeByContentSimilarity [matS2] (mkRat 85 100) = (maxFirstSeen [matS2]).toList :=
  ⟨C8_amended.1 (fun _ => false) true true true (mkRat 85 100),
   C8_amended.2 [matS2] (mkRat 85 100) (by decide)⟩

theorem execAdvance_fst (t : Task) (s : Nat) (r : EngineResult) :
    (execAdvance t s r).1 = .okAdvance s := by
  unfold execAdvance
  split_ifs <;> rfl

@[simp] theorem stepOutputKey_two : stepOutputKey 2 = "step_2_output" := rfl

@[simp] theorem stepOutputKey_three : stepOutputKey 3 = "step_3_output" := rfl

@[simp] theorem stepOutputKey_five : stepOutputKey 5 = "step_5_output" := rfl

@[simp] theorem stepOutputKey_six : stepOutputKey 6 = "step_6_output" := rfl

/-- C1 counterexample: execute performs no legality check. On a task aborted
at step 3, execute of step 5 succeeds with a checkpoint response and rewrites
the persisted state (status becomes waiting_confirm) instead of raising a
ValidationError and leaving the state unchanged. -/
theorem C1_counterexample :
    (executeStep cexAbortedTask 5 reqNone (.success rEngCk)).1 = .okCheckpoint 5 ∧
    (executeStep cexAbortedTask 5 reqNone (.success rEngCk)).2.status = .waitingConfirm ∧
    (executeStep cexAbortedTask 5 reqNone (.success rEngCk)).2 ≠ cexAbortedTask := by
  exact ⟨by decide, by decide, by decide⟩

/-- C1 (amended): execute validates nothing about the task state. With a
successful handler (and, for step 4, a topic present in the request), execute
succeeds for every step 1..9 on every task, whatever its current_step and
status — including aborted, completed and waiting_confirm; and even a call
rejected for an unknown step id has already mutated the persisted state,
setting current_step to the requested id and status to processing. -/
theorem C1_amended :
    (∀ (t : Task) (stepId : Nat) (req : ExecuteStepRequest) (r : EngineResult),
       1 ≤ stepId → stepId ≤ 9 →
       (stepId = 4 → optStrTruthy req.selectedTopic = true) →
       execRejected (executeStep t stepId req (.success r)).1 = false) ∧
    (∀ (t : Task) (req : ExecuteStepRequest) (h : HandlerOutcome),
       executeStep t 10 req h =
         (.httpError 400, updateTaskStep t 10 .processing none none)) := by
  constructor
  · intro t stepId req r h1 h9 h4
    interval_cases stepId
    · simp [executeStep, execAdvance_fst, execRejected]
    · simp [executeStep, execRejected]
    · simp [executeStep, execRejected]
    · rcases hsel : req.selectedTopic with _ | s
      · rw [hsel] at h4
        simp [optStrTruthy] at h4
      · have hs : s.isEmpty = false := by
          have := h4 rfl
          rw [hsel] at this
          simpa [optStrTruthy] using this
        simp [executeStep, hsel, hs, execAdvance_fst, execRejected]
    · simp [executeStep, execRejected]
    · simp [executeStep, execRejected]
    · simp [executeStep, execAdvance_fst, execRejected]
    · simp [executeStep, execAdvance_fst, execRejected]
    · simp [executeStep, execAdvance_fst, execRejected]
  · intro t req h
    rfl

/-- C1 witness: concrete instantiations of both clauses of the amended
statement. -/
theorem C1_amended_witness :
    execRejected (executeStep cexWaiting2Task 9 reqNone (.success rEng)).1 = false ∧
    executeStep cexWaiting2Task 10 reqNone (.success rEng) =
      (.httpError 400, updateTaskStep cexWaiting2Task 10 .processing none none) :=
  ⟨C1_amended.1 cexWaiting2Task 9 reqNone rEng (by decide) (by decide)
      (fun h => absurd h (by decide)),
   C1_amended.2 cexWaiting2Task reqNone (.success rEng)⟩

theorem executeStep_status_mem (t : Task) (stepId : Nat) (req : ExecuteStepRequest)
    (h : HandlerOutcome) :
    (executeStep t stepId req h).2.status = .processing ∨
    (executeStep t stepId req h).2.status = .waitingConfirm ∨
    (executeStep t stepId req h).2.status = .completed ∨
    (executeStep t stepId req h).2.status = .error := by
  rcases h with r | m <;>
    rcases stepId with _|_|_|_|_|_|_|_|_|_|n <;>
      simp only [executeStep, execAdvance, execFail, updateTaskStep, updateBriefData,
        addThinkAloudLog, updateTaskToWaiting, updateKnowledgeData] <;>
      first
      | (split_ifs <;> simp_all)
      | simp

theorem executeStep_completed_inv (t : Task) (stepId : Nat) (req : ExecuteStepRequest)
    (h : HandlerOutcome) :
    (executeStep t stepId req h).2.status = .completed →
    (executeStep t stepId req h).2.currentStep = 9 := by
  rcases h with r | m <;>
    rcases stepId with _|_|_|_|_|_|_|_|_|_|n <;>
      simp only [executeStep, execAdvance, execFail, updateTaskStep, updateBriefData,
        addThinkAloudLog, updateTaskToWaiting, updateKnowledgeData] <;>
      first
      | (split_ifs <;> simp_all)
      | simp

/-- C7 counterexample: abort succeeds on an already-aborted task instead of
rejecting the double abort, and a subsequent execute on the aborted task is
not rejected either — it succeeds and puts the task back into
waiting_confirm. -/
theorem C7_counterexample :
    (abortWorkflow cexAborted5Task).1 = .ok 5 ∧
    (abortWorkflow cexAborted5Task).2.status = .aborted ∧
    (executeStep cexAborted5Task 5 reqNone (.success rEngCk)).1 = .okCheckpoint 5 ∧
    (executeStep cexAborted5Task 5 reqNone (.success rEngCk)).2.status =
      .waitingConfirm := by
  exact ⟨by decide, by decide, by decide, by decide⟩

/-- C7 (amended): abort succeeds from EVERY status, terminal ones and double
aborts included, setting status aborted at the unchanged current step and
appending the abort log entry. After an abort, confirm is indeed rejected with
a ValidationError and leaves the state unchanged, but execute is not: with a
successful handler (topic present for step 4) it succeeds and moves the task
out of the aborted status, so an aborted task can re-enter processing,
waiting_confirm and completed. -/
theorem C7_amended :
    (∀ t : Task, (abortWorkflow t).1 = .ok t.currentStep ∧
       (abortWorkflow t).2.status = .aborted ∧
       (abortWorkflow t).2.currentStep = t.currentStep ∧
       (abortWorkflow t).2.thinkAloudLogs =
         t.thinkAloudLogs ++ [(t.currentStep, "⏹️ 用户已中止任务")]) ∧
    (∀ (t : Task) (req : ConfirmStepRequest) (now : String), t.status = .aborted →
       confirmCheckpoint t req now = (.httpError 400, t)) ∧
    (∀ (t : Task) (stepId : Nat) (req : ExecuteStepRequest) (r : EngineResult),
       t.status = .aborted → 1 ≤ stepId → stepId ≤ 9 →
       (stepId = 4 → optStrTruthy req.selectedTopic = true) →
       execRejected (executeStep t stepId req (.success r)).1 = false ∧
       (executeStep t stepId req (.success r)).2.status ≠ .aborted) := by
  refine ⟨?_, ?_, ?_⟩
  · intro t
    exact ⟨rfl, rfl, rfl, rfl⟩
  · intro t req now hab
    simp [confirmCheckpoint, hab]
  · intro t stepId req r hab h1 h9 h4
    refine ⟨C1_amended.1 t stepId req r h1 h9 h4, ?_⟩
    rcases executeStep_status_mem t stepId req (.success r) with h | h | h | h <;>
      simp [h]

theorem confirmUpdates_preserves (t : Task) (req : ConfirmStepRequest) :
    (confirmUpdates t req).2.currentStep = t.currentStep ∧
    (confirmUpdates t req).2.status = t.status ∧
    (confirmUpdates t req).2.briefData = t.briefData := by
  unfold confirmUpdates
  by_cases h2 : t.currentStep = 2 ∧ req.knowledgeConfirmed = true
  · rw [if_pos h2]
    rcases req.editedKnowledge with _ | ek
    · simp [addThinkAloudLog]
    · by_cases he : ek.isEmpty
      · simp [he, addThinkAloudLog]
      · simp [he, addThinkAloudLog, updateKnowledgeData]
  · rw [if_neg h2]
    by_cases h3 : t.currentStep = 3 ∧ optStrTruthy req.selectedTopic = true
    · rw [if_pos h3]
      simp [addThinkAloudLog]
    · rw [if_neg h3]
      by_cases h5 : t.currentStep = 5 ∧ req.styleConfirmed = true
      · rw [if_pos h5]
        by_cases hss : truthy req.selectedSample <;>
          by_cases hup : truthy req.userStyleProfile <;>
            simp [hss, hup, addThinkAloudLog]
      · rw [if_neg h5]
        by_cases h6 : t.currentStep = 6 ∧ optStrTruthy req.userMaterials = true
        · rw [if_pos h6]
          simp [addThinkAloudLog]
        · rw [if_neg h6]
          simp

/-- C7 witness: the confirm-rejection and execute-acceptance clauses of the
amended statement at a concrete aborted task. -/
theorem C7_amended_witness :
    confirmCheckpoint cexAbortedTask reqKnowledgeConfirm "NOW" =
      (.httpError 400, cexAbortedTask) ∧
    execRejected (executeStep cexAbortedTask 2 reqNone (.success rEngCk)).1 = false ∧
    (executeStep cexAbortedTask 2 reqNone (.success rEngCk)).2.status ≠ .aborted :=
  ⟨C7_amended.2.1 cexAbortedTask reqKnowledgeConfirm "NOW" rfl,
   (C7_amended.2.2 cexAbortedTask 2 reqNone rEngCk rfl (by decide) (by decide)
      (fun h => absurd h (by decide))).1,
   (C7_amended.2.2 cexAbortedTask 2 reqNone rEngCk rfl (by decide) (by decide)
      (fun h => absurd h (by decide))).2⟩

/-- C2 counterexample: confirming the step-2 checkpoint of a waiting task does
not advance the persisted current_step: the task stays at step 2 (the claim
predicts 3), with status processing. -/
theorem C2_counterexample :
    (confirmCheckpoint cexWaiting2Task reqKnowledgeConfirm "NOW").1 = .ok 3 ∧
    (confirmCheckpoint cexWaiting2Task reqKnowledgeConfirm "NOW").2.currentStep = 2 ∧
    (confirmCheckpoint cexWaiting2Task reqKnowledgeConfirm "NOW").2.status =
      .processing ∧
    (2 : Nat) ≠ 3 := by
  exact ⟨by decide, by decide, by decide, by decide⟩

/-- C2 (amended): confirm is legal only in waiting_confirm (otherwise HTTP 400
with the state unchanged); on success it records the checkpoint inputs into
brief_data (here: knowledge_confirmed at step 2, plus the user_confirmation
payload), appends a log entry, and sets status to processing — but it does NOT
advance the persisted current_step: only the next-step number of the HTTP
response is current_step + 1. -/
theorem C2_amended : ∀ (t : Task) (req : ConfirmStepRequest) (now : String),
    (t.status ≠ .waitingConfirm → confirmCheckpoint t req now = (.httpError 400, t)) ∧
    (t.status = .waitingConfirm →
       (confirmCheckpoint t req now).1 = .ok (t.currentStep + 1) ∧
       (confirmCheckpoint t req now).2.status = .processing ∧
       (confirmCheckpoint t req now).2.currentStep = t.currentStep ∧
       (confirmCheckpoint t req now).2.briefData.lookup "user_confirmation" =
         some (JVal.objOf [("confirmed_at", .str now), ("step", .num t.currentStep)]) ∧
       (t.currentStep = 2 → req.knowledgeConfirmed = true →
          (confirmCheckpoint t req now).2.briefData.lookup "knowledge_confirmed" =
            some (.bool true) ∧
          ∃ e, (confirmCheckpoint t req now).2.thinkAloudLogs =
            t.thinkAloudLogs ++ [e])) := by
  intro t req now
  constructor
  · intro h
    unfold confirmCheckpoint
    rw [if_pos h]
  · intro h
    have hcond : ¬ t.status ≠ Status.waitingConfirm := by simp [h]
    obtain ⟨hstep, hstat, hbrief⟩ := confirmUpdates_preserves t req
    refine ⟨?_, ?_, ?_, ?_, ?_⟩
    · unfold confirmCheckpoint
      rw [if_neg hcond]
    · unfold confirmCheckpoint
      rw [if_neg hcond]
      simp [confirmAndContinue]
    · unfold confirmCheckpoint
      rw [if_neg hcond]
      by_cases hu : (confirmUpdates t req).1.isEmpty <;>
        simp [hu, confirmAndContinue, updateBriefData, hstep]
    · unfold confirmCheckpoint
      rw [if_neg hcond]
      by_cases hu : (confirmUpdates t req).1.isEmpty <;>
        simp [hu, confirmAndContinue, lookup_setKey_self]
    · intro h2 hkc
      have hupd : confirmUpdates t req =
          ([("knowledge_confirmed", JVal.bool true)], (confirmUpdates t req).2) := by
        unfold confirmUpdates
        rw [if_pos ⟨h2, hkc⟩]
      constructor
      · unfold confirmCheckpoint
        rw [if_neg hcond]
        rw [hupd]
        simp [confirmAndContinue, updateBriefData, updateMany,
          lookup_setKey_ne _ _ _ _ (by decide : "knowledge_confirmed" ≠ "user_confirmation"),
          lookup_setKey_self]
      · unfold confirmCheckpoint
        rw [if_neg hcond]
        unfold confirmUpdates
        rw [if_pos ⟨h2, hkc⟩]
        rcases req.editedKnowledge with _ | ek
        · exact ⟨(2, "[用户确认] 已确认调研结论，进入选题阶段"),
            by simp [confirmAndContinue, updateBriefData, addThinkAloudLog]⟩
        · by_cases he : ek.isEmpty
          · exact ⟨(2, "[用户确认] 已确认调研结论，进入选题阶段"),
              by simp [he, confirmAndContinue, updateBriefData,
                addThinkAloudLog, updateKnowledgeData]⟩
          · exact ⟨(2, "[用户确认] 已编辑并确认调研结论（" ++ toString ek.length ++ " 字）"),
              by simp [he, confirmAndContinue, updateBriefData,
                addThinkAloudLog, updateKnowledgeData]⟩

/-- C2 witness: the amended statement at a concrete waiting task confirming
the step-2 checkpoint. -/
theorem C2_amended_witness :
    (confirmCheckpoint cexWaiting2Task reqKnowledgeConfirm "T").1 = .ok 3 ∧
    (confirmCheckpoint cexWaiting2Task reqKnowledgeConfirm "T").2.currentStep = 2 :=
  ⟨((C2_amended cexWaiting2Task reqKnowledgeConfirm "T").2 rfl).1,
   ((C2_amended cexWaiting2Task reqKnowledgeConfirm "T").2 rfl).2.2.1⟩

/-- C3 counterexample: current_step decreases without abort. From a fresh
task, executing step 5 parks it at current_step 5; a following execute of
step 1 (no abort anywhere in the sequence) drags current_step back down
to 2. -/
theorem C3_counterexample :
    (runOps (createTask "ch" "b" "now")
        [.exec 5 reqNone (.success rEngCk)]).currentStep = 5 ∧
    (runOps (createTask "ch" "b" "now")
        [.exec 5 reqNone (.success rEngCk),
         .exec 1 reqNone (.success rEng)]).currentStep = 2 ∧
    (runOps (createTask "ch" "b" "now")
        [.exec 5 reqNone (.success rEngCk),
         .exec 1 reqNone (.success rEng)]).status ≠ .aborted ∧
    (2 : Nat) < 5 := by
  exact ⟨by decide, by decide, by decide, by decide⟩

/-- C3 (amended): the monotonicity half of the claim is false on the code —
execute of a lower step number decreases current_step with no abort involved
(see the counterexample) — while the completed half holds: every task
reachable from create through any sequence of execute, confirm and abort
calls satisfies status = completed implies current_step = 9. -/
theorem C3_amended : ∀ (ch brief now : String) (ops : List Op),
    (runOps (createTask ch brief now) ops).status = .completed →
    (runOps (createTask ch brief now) ops).currentStep = 9 := by
  intro ch brief now ops
  have hstep : ∀ (t : Task) (op : Op),
      (t.status = .completed → t.currentStep = 9) →
      ((applyOp t op).status = .completed → (applyOp t op).currentStep = 9) := by
    intro t op ht
    cases op with
    | exec s req h => exact executeStep_completed_inv t s req h
    | confirmOp req now2 =>
        by_cases hw : t.status ≠ .waitingConfirm
        · have hpost : (applyOp t (.confirmOp req now2)) = t := by
            show (confirmCheckpoint t req now2).2 = t
            unfold confirmCheckpoint
            rw [if_pos hw]
          rw [hpost]
          exact ht
        · have hpost : (applyOp t (.confirmOp req now2)).status = .processing := by
            show (confirmCheckpoint t req now2).2.status = .processing
            unfold confirmCheckpoint
            rw [if_neg hw]
            simp [confirmAndContinue]
          intro hc
          rw [hpost] at hc
          cases hc
    | abortOp =>
        intro hc
        have hpost : (applyOp t .abortOp).status = .aborted := rfl
        rw [hpost] at hc
        cases hc
  have hrun : ∀ (l : List Op) (t : Task),
      (t.status = .completed → t.currentStep = 9) →
      ((runOps t l).status = .completed → (runOps t l).currentStep = 9) := by
    intro l
    induction l with
    | nil => intro t ht; exact ht
    | cons op rest ih =>
        intro t ht
        have hr : runOps t (op :: rest) = runOps (applyOp t op) rest := rfl
        rw [hr]
        exact ih (applyOp t op) (hstep t op ht)
  exact hrun ops (createTask ch brief now)
    (by intro hc; simp [createTask, addThinkAloudLog] at hc)

/-- C3 witness: a run that completes (execute of step 9) indeed ends at
current_step 9. -/
theorem C3_amended_witness :
    (runOps (createTask "c" "b" "n") [.exec 9 reqNone (.success rEng)]).currentStep = 9 :=
  C3_amended "c" "b" "n" [.exec 9 reqNone (.success rEng)] (by decide)

/-- C4 counterexample: the step-5 checkpoint does not keep the handler output.
After a successful execute of step 5, the waiting payload has overwritten
brief_data[step_5_output]; no persisted field retains the output text
STYLEGUIDE — the knowledge, draft and final columns are untouched and every
brief_data value differs from it. -/
theorem C4_counterexample :
    (executeStep cexProcessing5Task 5 reqNone (.success rEngStyle5)).2.briefData.lookup
        "step_5_output" =
      some (JVal.objOf [("style_profile", .onil),
        ("waiting_for", .str "style_confirmation")]) ∧
    rEngStyle5.output = "STYLEGUIDE" ∧
    (executeStep cexProcessing5Task 5 reqNone
        (.success rEngStyle5)).2.knowledgeBaseData = none ∧
    (executeStep cexProcessing5Task 5 reqNone
        (.success rEngStyle5)).2.draftContent = none ∧
    (executeStep cexProcessing5Task 5 reqNone
        (.success rEngStyle5)).2.finalContent = none ∧
    ∀ p ∈ (executeStep cexProcessing5Task 5 reqNone (.success rEngStyle5)).2.briefData,
      p.2 ≠ JVal.str "STYLEGUIDE" := by
  exact ⟨by decide, by decide, by decide, by decide, by decide, by decide⟩

/-- C4 (amended): the step table marks exactly steps 2, 3, 5 and 6 as
checkpoints, and for every successful execute: a checkpoint step sets status
waiting_confirm at an unchanged current_step and persists the checkpoint data
(step 2 keeps the full output in the knowledge column and records the summary
payload; steps 3 and 6 keep the output inside the waiting payload; step 5
persists the style profile of the result but its waiting payload overwrites
the stored step-5 output text, see the counterexample); a non-checkpoint step
persists its output and advances current_step to the next step clamped at 9,
with status processing, or completed for step 9. -/
theorem C4_amended :
    (WORKFLOW_STEPS.filter (fun s => s.isCheckpoint)).map (fun s => s.stepId) =
      [2, 3, 5, 6] ∧
    ∀ (t : Task) (req : ExecuteStepRequest) (rc r : EngineResult),
      r.isCheckpoint = false → optStrTruthy req.selectedTopic = true →
      ((executeStep t 1 req (.success r)).1 = .okAdvance 1 ∧
       (executeStep t 1 req (.success r)).2.currentStep = 2 ∧
       (executeStep t 1 req (.success r)).2.status = .processing ∧
       (executeStep t 1 req (.success r)).2.briefData.lookup "step_1_output" =
         some (.str r.output)) ∧
      ((executeStep t 2 req (.success rc)).1 = .okCheckpoint 2 ∧
       (executeStep t 2 req (.success rc)).2.currentStep = 2 ∧
       (executeStep t 2 req (.success rc)).2.status = .waitingConfirm ∧
       (executeStep t 2 req (.success rc)).2.knowledgeBaseData = some rc.output ∧
       (executeStep t 2 req (.success rc)).2.briefData.lookup "step_2_output" =
         some (JVal.objOf
           [("knowledge_summary", .str rc.knowledgeSummary),
            ("knowledge_sources", JVal.arrOf (rc.knowledgeSources.map .str)),
            ("waiting_for", .str "knowledge_confirmation")])) ∧
      ((executeStep t 3 req (.success rc)).1 = .okCheckpoint 3 ∧
       (executeStep t 3 req (.success rc)).2.currentStep = 3 ∧
       (executeStep t 3 req (.success rc)).2.status = .waitingConfirm ∧
       (executeStep t 3 req (.success rc)).2.briefData.lookup "step_3_output" =
         some (JVal.objOf
           [("topics", .str rc.output), ("waiting_for", .str "topic_selection")])) ∧
      ((executeStep t 4 req (.success r)).1 = .okAdvance 4 ∧
       (executeStep t 4 req (.success r)).2.currentStep = 5 ∧
       (executeStep t 4 req (.success r)).2.status = .processing ∧
       (executeStep t 4 req (.success r)).2.briefData.lookup "step_4_output" =
         some (.str r.output)) ∧
      ((executeStep t 5 req (.success rc)).1 = .okCheckpoint 5 ∧
       (executeStep t 5 req (.success rc)).2.currentStep = 5 ∧
       (executeStep t 5 req (.success rc)).2.status = .waitingConfirm ∧
       (executeStep t 5 req (.success rc)).2.briefData.lookup "style_profile" =
         some rc.styleProfile ∧
       (executeStep t 5 req (.success rc)).2.briefData.lookup "step_5_output" =
         some (JVal.objOf
           [("style_profile", rc.styleProfile),
            ("waiting_for", .str "style_confirmation")])) ∧
      ((executeStep t 6 req (.success rc)).1 = .okCheckpoint 6 ∧
       (executeStep t 6 req (.success rc)).2.currentStep = 6 ∧
       (executeStep t 6 req (.success rc)).2.status = .waitingConfirm ∧
       (executeStep t 6 req (.success rc)).2.briefData.lookup "step_6_output" =
         some (JVal.objOf
           [("checklist", .str rc.output), ("waiting_for", .str "data_confirmation")])) ∧
      ((executeStep t 7 req (.success r)).1 = .okAdvance 7 ∧
       (executeStep t 7 req (.success r)).2.currentStep = 8 ∧
       (executeStep t 7 req (.success r)).2.status = .processing ∧
       (executeStep t 7 req (.success r)).2.draftContent = some r.output ∧
       (executeStep t 7 req (.success r)).2.briefData.lookup "step_7_output" =
         some (.str r.output)) ∧
      ((executeStep t 8 req (.success r)).1 = .okAdvance 8 ∧
       (executeStep t 8 req (.success r)).2.currentStep = 9 ∧
       (executeStep t 8 req (.success r)).2.status = .processing ∧
       (executeStep t 8 req (.success r)).2.finalContent = some r.output ∧
       (executeStep t 8 req (.success r)).2.briefData.lookup "step_8_output" =
         some (.str r.output)) ∧
      ((executeStep t 9 req (.success r)).1 = .okAdvance 9 ∧
       (executeStep t 9 req (.success r)).2.currentStep = 9 ∧
       (executeStep t 9 req (.success r)).2.status = .completed ∧
       (executeStep t 9 req (.success r)).2.briefData.lookup "step_9_output" =
         some (.str r.output)) := by
  refine ⟨by decide, ?_⟩
  intro t req rc r hr htopic
  obtain ⟨sTop, hsel, hs⟩ : ∃ s, req.selectedTopic = some s ∧ s.isEmpty = false := by
    rcases hopt : req.selectedTopic with _ | s
    · rw [hopt] at htopic
      simp [optStrTruthy] at htopic
    · rw [hopt] at htopic
      exact ⟨s, rfl, by simpa [optStrTruthy] using htopic⟩
  refine ⟨⟨?_, ?_, ?_, ?_⟩, ⟨?_, ?_, ?_, ?_, ?_⟩, ⟨?_, ?_, ?_, ?_⟩, ⟨?_, ?_, ?_, ?_⟩,
    ⟨?_, ?_, ?_, ?_, ?_⟩, ⟨?_, ?_, ?_, ?_⟩, ⟨?_, ?_, ?_, ?_, ?_⟩, ⟨?_, ?_, ?_, ?_, ?_⟩,
    ⟨?_, ?_, ?_, ?_⟩⟩ <;>
    simp [executeStep, execAdvance, hr, hsel, hs, updateTaskStep, updateBriefData,
      addThinkAloudLog, updateTaskToWaiting, updateKnowledgeData, updateMany,
      lookup_setKey_self, lookup_setKey_ne]

/-- C4 witness: the amended statement at a concrete task and engine results —
the step-2 checkpoint parks the task in waiting_confirm and the step-9
execute completes it at step 9. -/
theorem C4_amended_witness :
    (executeStep cexWaiting2Task 2 reqTopic (.success rEngCk)).2.status =
      .waitingConfirm ∧
    (executeStep cexWaiting2Task 9 reqTopic (.success rEng)).2.status = .completed ∧
    (executeStep cexWaiting2Task 9 reqTopic (.success rEng)).2.currentStep = 9 :=
  ⟨(C4_amended.2 cexWaiting2Task reqTopic rEngCk rEng (by decide) (by decide)).2.1.2.2.1,
   (C4_amended.2 cexWaiting2Task reqTopic rEngCk rEng
      (by decide) (by decide)).2.2.2.2.2.2.2.2.2.2.1,
   (C4_amended.2 cexWaiting2Task reqTopic rEngCk rEng
      (by decide) (by decide)).2.2.2.2.2.2.2.2.2.1⟩

end WriteAgent
